import Mathlib

/-!
# Verification of py4cytoscape identifier translation, validators and style dependencies

Shallow embedding of `py4cytoscape/py4cytoscape_utils.py` and
`py4cytoscape/style_dependencies.py`.

Python values flowing through the translators are either strings (names) or
integers (SUIDs) on input, and strings, integers or lists of integers on
output.  The node/edge table fetched from Cytoscape
(`tables.get_table_columns(..., ['name'], ...)`) is a pandas data frame whose
index holds the integer SUIDs and whose single `name` column holds strings;
we model it as a list of `(SUID, name)` rows in index order.
-/

namespace Py4Cy

/-- A Python value as it appears in translator results: an `int` SUID, a
`str` name, or a list of SUIDs (the ambiguous-name case). -/
inductive PyVal where
  | pint (n : Int)
  | pstr (s : String)
  | plist (xs : List PyVal)
deriving Repr

/-- An input element of a translation batch: either a node/edge name
(a Python `str`) or a SUID (a Python `int`). -/
inductive Ident where
  | name (s : String)
  | suid (n : Int)
deriving DecidableEq, Repr

/-- The Python value an input element denotes. -/
def Ident.toPy : Ident → PyVal
  | .name s => .pstr s
  | .suid n => .pint n

/-- The node (or edge) table `df`: rows of (index SUID, `name` column value),
in data-frame order. -/
structure Table where
  rows : List (Int × String)
deriving DecidableEq, Repr

/-- `df.index`: the SUID index values in order. -/
def Table.index (t : Table) : List Int := t.rows.map (fun r => r.1)

/-- `df['name'].values`: the name column values in order. -/
def Table.names (t : Table) : List String := t.rows.map (fun r => r.2)

/-- `x in df.index` for an input element `x`.  The index holds integer
SUIDs, so an integer is looked up by value and a string never equals an
index entry (Python `==` across `str`/`int` is `False`). -/
def inIndex (t : Table) : Ident → Bool
  | .suid n => t.index.contains n
  | .name _ => false

/-- `list(df[df.name.eq(x)].index.values)`: the SUIDs of all rows whose
`name` equals `x`, in row order.  Comparing the string `name` column with
an integer input matches no row. -/
def matchingSuids (t : Table) : Ident → List Int
  | .name s => (t.rows.filter (fun r => r.2 == s)).map (fun r => r.1)
  | .suid _ => []

/-- `x[0] if len(x) == 1 else x` applied to one element of the translated
list: a singleton match collapses to the scalar SUID, anything else stays a
list. -/
def collapseSuids : List Int → PyVal
  | [s] => .pint s
  | l => .plist (l.map PyVal.pint)

/-- The `node_names` / `edge_names` argument: Python `None`, a scalar
string, or a list of names/SUIDs. -/
inductive Arg where
  | none
  | str (s : String)
  | list (xs : List Ident)
deriving DecidableEq, Repr

/-- `if node_names is None: return None` plus
`if isinstance(node_names, str): node_names = [node_names]`:
the normalized batch, or Python `None`. -/
def toBatch : Arg → Option (List Ident)
  | .none => Option.none
  | .str s => some [Ident.name s]
  | .list xs => some xs

/-- A `CyError` raised by the translators; the message interpolates the
whole input batch (`f'Invalid name in node name list: {node_names}'` etc.),
so the error carries the batch. -/
inductive CyErr where
  | invalidNodeNames (batch : List Ident)
  | invalidEdgeNames (batch : List Ident)
  | invalidNodeSuids (batch : List PyVal)
  | invalidEdgeSuids (batch : List PyVal)
deriving Repr

/-- `node_name_to_node_suid(node_names, ...)` after the table fetch:
`None` passes through; a scalar string becomes a one-element batch;
if every element is in the SUID index the batch is returned unchanged;
otherwise every element is resolved as a name, a zero-match element aborts
the whole batch with a `CyError`, and singleton matches collapse to scalar
SUIDs. -/
def node_name_to_node_suid (t : Table) (node_names : Arg) :
    Except CyErr (Option (List PyVal)) :=
  match toBatch node_names with
  | Option.none => .ok Option.none
  | some names =>
    let test_present := names.map (inIndex t)
    if !test_present.contains false then
      .ok (some (names.map Ident.toPy))
    else
      let node_suids := names.map (matchingSuids t)
      if node_suids.any (fun x => x.length == 0) then
        .error (.invalidNodeNames names)
      else
        .ok (some (node_suids.map collapseSuids))

/-- `edge_name_to_edge_suid(edge_names, ...)`: same algorithm as the node
version over the edge table, with the edge error message. -/
def edge_name_to_edge_suid (t : Table) (edge_names : Arg) :
    Except CyErr (Option (List PyVal)) :=
  match toBatch edge_names with
  | Option.none => .ok Option.none
  | some names =>
    let test_present := names.map (inIndex t)
    if !test_present.contains false then
      .ok (some (names.map Ident.toPy))
    else
      let edge_suids := names.map (matchingSuids t)
      if edge_suids.any (fun x => x.length == 0) then
        .error (.invalidEdgeNames names)
      else
        .ok (some (edge_suids.map collapseSuids))

/-- `x in all_names` where `all_names = df['name'].values` holds strings:
a string is looked up by value; an integer never equals a name. -/
def inNames (t : Table) : PyVal → Bool
  | .pstr s => t.names.contains s
  | _ => false

/-- `all_names[all_suids_list.index(x)]`: the name at the first index
position holding SUID `x`; `Option.none` models the `ValueError` when `x`
is absent from the index (or is not an integer at all). -/
def firstNameOfSuid (t : Table) : PyVal → Option String
  | .pint n => (t.rows.find? (fun r => r.1 == n)).map (fun r => r.2)
  | _ => Option.none

/-- Resolve every element of the batch, left to right; any failure aborts
(the comprehension raises on its first bad element, caught as a batch-wide
`CyError`). -/
def lookupAllNames (t : Table) : List PyVal → Option (List String)
  | [] => some []
  | x :: xs =>
    match firstNameOfSuid t x with
    | Option.none => Option.none
    | some n =>
      match lookupAllNames t xs with
      | Option.none => Option.none
      | some ns => some (n :: ns)

/-- The `node_suids` argument of the reverse translators: Python `None`, a
scalar string (the only scalar the code wraps into a list), or a list. -/
inductive SuidArg where
  | none
  | str (s : String)
  | list (xs : List PyVal)
deriving Repr

/-- `if isinstance(node_suids, str): node_suids = [node_suids]`: only a
scalar string is wrapped; `None` is handled before. -/
def SuidArg.toBatch : SuidArg → Option (List PyVal)
  | .none => Option.none
  | .str s => some [PyVal.pstr s]
  | .list xs => some xs

/-- `node_suid_to_node_name(node_suids, ...)` after the table fetch:
`None` passes through; a scalar string becomes a one-element batch; if
every element already appears in the name column the batch is returned
unchanged; otherwise every element is looked up in the SUID index and any
miss raises a `CyError` naming the whole batch. -/
def node_suid_to_node_name (t : Table) (node_suids : SuidArg) :
    Except CyErr (Option (List PyVal)) :=
  match node_suids.toBatch with
  | Option.none => .ok Option.none
  | some xs =>
    let test_present := xs.map (inNames t)
    if !test_present.contains false then
      .ok (some xs)
    else
      match lookupAllNames t xs with
      | Option.none => .error (.invalidNodeSuids xs)
      | some ns => .ok (some (ns.map PyVal.pstr))

/-!
## Validators (`verify_hex_colors`, `verify_opacities`, `verify_dimensions`, `verify_slot`)

Validator arguments are arbitrary Python values: `None`, booleans, ints,
floats, strings, lists.  Python floats are modelled as rationals (only
order comparisons against integer bounds occur).  `isinstance(x, int)` is
true for booleans (`bool` is a subclass of `int`); in comparisons `True`
counts as `1` and `False` as `0`.
-/

/-- A Python value passed to a validator. -/
inductive Val where
  | none
  | vbool (b : Bool)
  | vint (n : Int)
  | vfloat (q : Rat)
  | vstr (s : String)
  | vlist (xs : List Val)
deriving Repr

/-- An exception raised by a validator: a `CyError` (carrying the offending
value that the message interpolates), or the `AttributeError` Python raises
when `.startswith` is called on a non-string. -/
inductive PyErr where
  | invalidHexColor (color : Val)
  | invalidOpacity (opacity : Val)
  | illegalDimension (dimension : String) (size : Val)
  | invalidSlot
  | attributeError (attr : String)
deriving Repr

/-- `isinstance(x, float) or isinstance(x, int)`; booleans are instances
of `int`. -/
def isNumber : Val → Bool
  | .vbool _ => true
  | .vint _ => true
  | .vfloat _ => true
  | _ => false

/-- Numeric value used in comparisons: `True` is `1`, `False` is `0`.
(Only applied to values with `isNumber` true.) -/
def toRat : Val → Rat
  | .vbool b => if b then 1 else 0
  | .vint n => (n : Rat)
  | .vfloat q => q
  | _ => 0

/-- The per-element body of `verify_hex_colors`:
`if not color.startswith('#') or len(color) != 7: raise CyError(...)`;
a non-string raises `AttributeError` at `.startswith`. -/
def checkHexColor : Val → Except PyErr Unit
  | .vstr s =>
    if !s.startsWith "#" || s.length != 7 then
      .error (.invalidHexColor (.vstr s))
    else .ok ()
  | _ => .error (.attributeError "startswith")

/-- The per-element body of `verify_opacities`: not a number, or outside
`[0, 255]`, raises a `CyError` (the `or` short-circuits, so the comparison
is only reached for numbers). -/
def checkOpacity (opacity : Val) : Except PyErr Unit :=
  if isNumber opacity = false ∨ toRat opacity < 0 ∨ toRat opacity > 255 then
    .error (.invalidOpacity opacity)
  else .ok ()

/-- The per-element body of `verify_dimensions`: a non-number raises a
`CyError` naming the dimension. -/
def checkDimension (dimension : String) (size : Val) : Except PyErr Unit :=
  if isNumber size then .ok () else .error (.illegalDimension dimension size)

/-- The `for` loop over the normalized list: elements are checked left to
right and the first failure raises. -/
def validateEach (check : Val → Except PyErr Unit) : List Val → Except PyErr Unit
  | [] => .ok ()
  | x :: xs =>
    match check x with
    | .ok _ => validateEach check xs
    | .error e => .error e

/-- `if not isinstance(xs, list): xs = [xs]`. -/
def scalarToList : Val → List Val
  | .vlist xs => xs
  | v => [v]

/-- `verify_hex_colors(colors)`: `None` is a silent no-op; otherwise a
non-list is wrapped and each element checked. -/
def verify_hex_colors (colors : Val) : Except PyErr Unit :=
  match colors with
  | .none => .ok ()
  | c => validateEach checkHexColor (scalarToList c)

/-- `verify_opacities(opacities)`: `None` is a silent no-op; otherwise a
non-list is wrapped and each element checked. -/
def verify_opacities (opacities : Val) : Except PyErr Unit :=
  match opacities with
  | .none => .ok ()
  | c => validateEach checkOpacity (scalarToList c)

/-- `verify_dimensions(dimension, sizes)`: `None` is a silent no-op;
otherwise a non-list is wrapped and each element checked. -/
def verify_dimensions (dimension : String) (sizes : Val) : Except PyErr Unit :=
  match sizes with
  | .none => .ok ()
  | c => validateEach (checkDimension dimension) (scalarToList c)

/-- `verify_slot(slot)`: unlike the other validators there is no `None`
short-circuit and no list normalization; the single argument must be a
number in `[1, 9]` or the `CyError` is raised. -/
def verify_slot (slot : Val) : Except PyErr Unit :=
  if isNumber slot = false ∨ toRat slot < 1 ∨ toRat slot > 9 then
    .error .invalidSlot
  else .ok ()

/-!
## Style dependencies (`style_dependencies.py`)

`set_style_dependencies` talks to two collaborators: `styles`
(`get_visual_style_names`) and `commands` (`cyrest_put`, `commands_post`).
We model the remote side as an oracle and record every network write the
function issues, in order, so that "fails before any network write" is a
statement about the trace.
-/

/-- One record of the PUT body:
`{'visualPropertyDependency': dep, 'enabled': val}`. -/
structure DepRecord where
  visualPropertyDependency : String
  enabled : Val
deriving Repr

/-- A network write issued through the `commands` collaborator. -/
inductive Request where
  | cyrest_put (path : String) (body : List DepRecord)
  | commands_post (cmd : String)
deriving Repr

/-- `CyError`: `'Error in py4cytoscape:<caller>. No visual style named "<name>"'`. -/
inductive StyleErr where
  | noVisualStyle (caller : String) (style_name : String)
deriving DecidableEq, Repr

/-- The remote Cytoscape instance: the known visual style names and the
responses it would give to each write. -/
structure Remote where
  visual_style_names : List String
  put_response : String → List DepRecord → Val
  post_response : String → Val

/-- `set_style_dependencies(style_name, dependencies, ...)`: an unknown
style name raises before any request is issued; otherwise the dependency
mapping becomes a list of records, a PUT of those records is issued, then
the `vizmap apply` command, and only the second result is returned (the
first `res` is overwritten).  The second component is the ordered trace of
issued requests. -/
def set_style_dependencies (rem : Remote) (style_name : String)
    (dependencies : List (String × Val)) : Except StyleErr Val × List Request :=
  if !rem.visual_style_names.contains style_name then
    (.error (.noVisualStyle "set_style_dependencies" style_name), [])
  else
    let dep_list := dependencies.map (fun dv => DepRecord.mk dv.1 dv.2)
    let _res := rem.put_response ("styles/" ++ style_name ++ "/dependencies") dep_list
    let res := rem.post_response ("vizmap apply styles=\"" ++ style_name ++ "\"")
    (.ok res,
     [Request.cyrest_put ("styles/" ++ style_name ++ "/dependencies") dep_list,
      Request.commands_post ("vizmap apply styles=\"" ++ style_name ++ "\"")])

/-- `match_arrow_color_to_edge(new_state, style_name, ...)`:
`toggle = 'true' if new_state else 'false'` (a string, not a boolean!)
passed to the generic setter under the key `'arrowColorMatchesEdge'`. -/
def match_arrow_color_to_edge (rem : Remote) (new_state : Bool)
    (style_name : String) : Except StyleErr Val × List Request :=
  let toggle := if new_state then "true" else "false"
  set_style_dependencies rem style_name [("arrowColorMatchesEdge", Val.vstr toggle)]

/-- `lock_node_dimensions(new_state, style_name, ...)`: same pattern with
key `'nodeSizeLocked'`. -/
def lock_node_dimensions (rem : Remote) (new_state : Bool)
    (style_name : String) : Except StyleErr Val × List Request :=
  let toggle := if new_state then "true" else "false"
  set_style_dependencies rem style_name [("nodeSizeLocked", Val.vstr toggle)]

/-- `sync_node_custom_graphics_size(new_state, style_name, ...)`: same
pattern with key `'nodeCustomGraphicsSizeSync'`. -/
def sync_node_custom_graphics_size (rem : Remote) (new_state : Bool)
    (style_name : String) : Except StyleErr Val × List Request :=
  let toggle := if new_state then "true" else "false"
  set_style_dependencies rem style_name [("nodeCustomGraphicsSizeSync", Val.vstr toggle)]

/-!
## Concrete test fixtures
-/

/-- A small concrete node/edge table: two uniquely named entries and one
name (`"dup"`) bound to two SUIDs. -/
def sampleTable : Table :=
  ⟨[(1022, "YDR277C"), (1023, "YDL194W"), (1099, "dup"), (1100, "dup")]⟩

/-- A concrete remote with one known visual style. -/
def sampleRemote : Remote :=
  ⟨["default"], fun _ _ => Val.none, fun _ => Val.vstr "applied"⟩

/-!
## Helper lemmas
-/

/-- `False in [f(x) for x in l]` as a predicate on `l`. -/
theorem contains_false_map {α : Type} (f : α → Bool) (l : List α) :
    (l.map f).contains false = l.any (fun x => !f x) := by
  induction l with
  | nil => rfl
  | cons a t ih =>
    simp only [List.map_cons, List.contains_cons, List.any_cons, ih]
    cases f a <;> rfl

/-- `any` over a mapped list, for maps that change the element type. -/
theorem any_map_general {α β : Type} (g : α → β) (p : β → Bool) (l : List α) :
    (l.map g).any p = l.any (fun x => p (g x)) := by
  induction l with
  | nil => rfl
  | cons a t ih => simp [List.any_cons, ih]

/-- Definitional computation of `node_name_to_node_suid` on a non-`None`
argument. -/
theorem node_name_to_node_suid_some (t : Table) (arg : Arg) (names : List Ident)
    (hb : toBatch arg = some names) :
    node_name_to_node_suid t arg =
      (if !(names.map (inIndex t)).contains false then
        .ok (some (names.map Ident.toPy))
      else if (names.map (matchingSuids t)).any (fun x => x.length == 0) then
        .error (.invalidNodeNames names)
      else
        .ok (some ((names.map (matchingSuids t)).map collapseSuids))) := by
  unfold node_name_to_node_suid
  rw [hb]

/-- Definitional computation of `edge_name_to_edge_suid` on a non-`None`
argument. -/
theorem edge_name_to_edge_suid_some (t : Table) (arg : Arg) (names : List Ident)
    (hb : toBatch arg = some names) :
    edge_name_to_edge_suid t arg =
      (if !(names.map (inIndex t)).contains false then
        .ok (some (names.map Ident.toPy))
      else if (names.map (matchingSuids t)).any (fun x => x.length == 0) then
        .error (.invalidEdgeNames names)
      else
        .ok (some ((names.map (matchingSuids t)).map collapseSuids))) := by
  unfold edge_name_to_edge_suid
  rw [hb]

/-- Definitional computation of `node_suid_to_node_name` on a non-`None`
argument. -/
theorem node_suid_to_node_name_some (t : Table) (arg : SuidArg) (xs : List PyVal)
    (hb : arg.toBatch = some xs) :
    node_suid_to_node_name t arg =
      (if !(xs.map (inNames t)).contains false then
        .ok (some xs)
      else
        match lookupAllNames t xs with
        | Option.none => .error (.invalidNodeSuids xs)
        | some ns => .ok (some (ns.map PyVal.pstr))) := by
  unfold node_suid_to_node_name
  rw [hb]

/-- When every batch element is in the SUID index, the fast-path guard
`not False in test_present` holds. -/
theorem fast_path_guard (t : Table) (names : List Ident)
    (hall : ∀ x ∈ names, inIndex t x = true) :
    (!(names.map (inIndex t)).contains false) = true := by
  rw [contains_false_map]
  have h : (names.any fun x => !inIndex t x) = false := by
    rw [List.any_eq_false]
    intro x hx
    simp [hall x hx]
  rw [h]; rfl

/-- Shared error-path computation of `node_name_to_node_suid` and
`edge_name_to_edge_suid`: on the translating path, a zero-match element
makes both functions raise the batch-naming `CyError`. -/
theorem translate_error_eq (t : Table) (arg : Arg) (names : List Ident)
    (hb : toBatch arg = some names)
    (hpath : (names.map (inIndex t)).contains false = true)
    (hzero : ∃ x ∈ names, matchingSuids t x = []) :
    node_name_to_node_suid t arg = .error (.invalidNodeNames names) ∧
    edge_name_to_edge_suid t arg = .error (.invalidEdgeNames names) := by
  have hany : ((names.map (matchingSuids t)).any (fun x => x.length == 0)) = true := by
    rw [any_map_general, List.any_eq_true]
    obtain ⟨x, hx, hempty⟩ := hzero
    exact ⟨x, hx, by simp [hempty]⟩
  have hcond : (!(names.map (inIndex t)).contains false) = false := by
    rw [hpath]; rfl
  constructor
  · rw [node_name_to_node_suid_some t arg names hb, hcond,
      if_neg (by simp : ¬(false = true)), hany, if_pos rfl]
  · rw [edge_name_to_edge_suid_some t arg names hb, hcond,
      if_neg (by simp : ¬(false = true)), hany, if_pos rfl]

/-- A match list of length at least two is returned whole. -/
theorem collapseSuids_of_two_le (l : List Int) (h : 2 ≤ l.length) :
    collapseSuids l = PyVal.plist (l.map PyVal.pint) := by
  match l with
  | [] => simp at h
  | [a] => simp at h
  | a :: b :: rest => rfl

/-!
## Claims about the identifier translators
-/

/-- C1: for every non-null input batch to `node_name_to_node_suid` /
`edge_name_to_edge_suid` in which every element is already present in the
lookup table's key domain (the SUID index), the translator returns the
input unchanged; a scalar string input is first normalized to a
single-element list (`toBatch`). -/
theorem C1_resolved_batch_identity (t : Table) (arg : Arg) (names : List Ident)
    (hb : toBatch arg = some names)
    (hall : ∀ x ∈ names, inIndex t x = true) :
    node_name_to_node_suid t arg = .ok (some (names.map Ident.toPy)) ∧
    edge_name_to_edge_suid t arg = .ok (some (names.map Ident.toPy)) := by
  have hc := fast_path_guard t names hall
  constructor
  · rw [node_name_to_node_suid_some t arg names hb, hc, if_pos rfl]
  · rw [edge_name_to_edge_suid_some t arg names hb, hc, if_pos rfl]

theorem C1_witness :
    (toBatch (Arg.list [Ident.suid 1022, Ident.suid 1023]) =
      some [Ident.suid 1022, Ident.suid 1023]) ∧
    (∀ x ∈ [Ident.suid 1022, Ident.suid 1023], inIndex sampleTable x = true) ∧
    node_name_to_node_suid sampleTable (.list [.suid 1022, .suid 1023]) =
      .ok (some [PyVal.pint 1022, PyVal.pint 1023]) ∧
    edge_name_to_edge_suid sampleTable (.list [.suid 1022, .suid 1023]) =
      .ok (some [PyVal.pint 1022, PyVal.pint 1023]) :=
  ⟨rfl, by decide,
   (C1_resolved_batch_identity sampleTable (Arg.list [.suid 1022, .suid 1023])
     [Ident.suid 1022, Ident.suid 1023] rfl (by decide)).1,
   (C1_resolved_batch_identity sampleTable (Arg.list [.suid 1022, .suid 1023])
     [Ident.suid 1022, Ident.suid 1023] rfl (by decide)).2⟩

/-- C2: on the translating path (at least one element not in the SUID
index) with no zero-match element, the output is positionally the
collapse of each element's match list: a unique match becomes the scalar
SUID, and a name bound to `k > 1` SUIDs becomes the list of exactly those
`k` SUIDs — never an arbitrary single pick. -/
theorem C2_translation_multiplicity (t : Table) (names : List Ident)
    (hpath : (names.map (inIndex t)).contains false = true)
    (hnz : ∀ x ∈ names, matchingSuids t x ≠ []) :
    node_name_to_node_suid t (.list names) =
      .ok (some (names.map (fun x => collapseSuids (matchingSuids t x)))) ∧
    (∀ x s, matchingSuids t x = [s] →
      collapseSuids (matchingSuids t x) = PyVal.pint s) ∧
    (∀ x, 2 ≤ (matchingSuids t x).length →
      collapseSuids (matchingSuids t x) =
        PyVal.plist ((matchingSuids t x).map PyVal.pint) ∧
      ((matchingSuids t x).map PyVal.pint).length =
        (matchingSuids t x).length) := by
  refine ⟨?_, ?_, ?_⟩
  · have hcond : (!(names.map (inIndex t)).contains false) = false := by
      rw [hpath]; rfl
    have hany : ((names.map (matchingSuids t)).any (fun x => x.length == 0)) = false := by
      rw [any_map_general, List.any_eq_false]
      intro x hx
      simp [List.length_eq_zero, hnz x hx]
    rw [node_name_to_node_suid_some t (.list names) names rfl, hcond,
      if_neg (by simp : ¬(false = true)), hany,
      if_neg (by simp : ¬(false = true)), List.map_map]
    rfl
  · intro x s hxs
    rw [hxs]
    rfl
  · intro x hx
    exact ⟨collapseSuids_of_two_le _ hx, List.length_map _ _⟩

theorem C2_witness :
    (([Ident.name "YDR277C", Ident.name "dup"].map (inIndex sampleTable)).contains
      false = true) ∧
    (∀ x ∈ [Ident.name "YDR277C", Ident.name "dup"],
      matchingSuids sampleTable x ≠ []) ∧
    node_name_to_node_suid sampleTable
        (.list [Ident.name "YDR277C", Ident.name "dup"]) =
      .ok (some [PyVal.pint 1022, PyVal.plist [PyVal.pint 1099, PyVal.pint 1100]]) :=
  ⟨by decide, by decide,
   (C2_translation_multiplicity sampleTable [Ident.name "YDR277C", Ident.name "dup"]
     (by decide) (by decide)).1⟩

/-- C3: on the translating path, an element with zero name matches makes
the translator raise a `CyError` that names the whole offending input
batch, and no partial result is returned (the result is the error, not an
`ok` value). -/
theorem C3_unknown_name_aborts_batch (t : Table) (arg : Arg) (names : List Ident)
    (hb : toBatch arg = some names)
    (hpath : (names.map (inIndex t)).contains false = true)
    (hzero : ∃ x ∈ names, matchingSuids t x = []) :
    node_name_to_node_suid t arg = .error (.invalidNodeNames names) ∧
    edge_name_to_edge_suid t arg = .error (.invalidEdgeNames names) :=
  translate_error_eq t arg names hb hpath hzero

theorem C3_witness :
    (toBatch (Arg.list [Ident.name "bogus", Ident.name "YDR277C"]) =
      some [Ident.name "bogus", Ident.name "YDR277C"]) ∧
    (([Ident.name "bogus", Ident.name "YDR277C"].map (inIndex sampleTable)).contains
      false = true) ∧
    (∃ x ∈ [Ident.name "bogus", Ident.name "YDR277C"],
      matchingSuids sampleTable x = []) ∧
    node_name_to_node_suid sampleTable
        (.list [Ident.name "bogus", Ident.name "YDR277C"]) =
      .error (.invalidNodeNames [Ident.name "bogus", Ident.name "YDR277C"]) ∧
    edge_name_to_edge_suid sampleTable
        (.list [Ident.name "bogus", Ident.name "YDR277C"]) =
      .error (.invalidEdgeNames [Ident.name "bogus", Ident.name "YDR277C"]) :=
  ⟨rfl, by decide, by decide,
   (C3_unknown_name_aborts_batch sampleTable
     (Arg.list [Ident.name "bogus", Ident.name "YDR277C"])
     [Ident.name "bogus", Ident.name "YDR277C"] rfl (by decide) (by decide)).1,
   (C3_unknown_name_aborts_batch sampleTable
     (Arg.list [Ident.name "bogus", Ident.name "YDR277C"])
     [Ident.name "bogus", Ident.name "YDR277C"] rfl (by decide) (by decide)).2⟩

/-- C4: a mixed batch in which some element forces the translating path
while another element is a valid SUID fails with the unknown-identifier
error instead of passing the valid SUID through: once any translation is
needed every element is re-resolved as a name, and an integer SUID never
matches the string name column, so its match list is empty. -/
theorem C4_mixed_batch_fails (t : Table) (names : List Ident) (n : Int)
    (hpath : ∃ x ∈ names, inIndex t x = false)
    (hmem : Ident.suid n ∈ names)
    (_hvalid : t.index.contains n = true) :
    node_name_to_node_suid t (.list names) = .error (.invalidNodeNames names) ∧
    edge_name_to_edge_suid t (.list names) = .error (.invalidEdgeNames names) := by
  have hcontains : (names.map (inIndex t)).contains false = true := by
    rw [contains_false_map, List.any_eq_true]
    obtain ⟨x, hx, hfx⟩ := hpath
    exact ⟨x, hx, by simp [hfx]⟩
  exact translate_error_eq t (.list names) names rfl hcontains
    ⟨.suid n, hmem, rfl⟩

theorem C4_witness :
    (∃ x ∈ [Ident.suid 1022, Ident.name "YDR277C"], inIndex sampleTable x = false) ∧
    (Ident.suid 1022 ∈ [Ident.suid 1022, Ident.name "YDR277C"]) ∧
    (sampleTable.index.contains 1022 = true) ∧
    node_name_to_node_suid sampleTable
        (.list [Ident.suid 1022, Ident.name "YDR277C"]) =
      .error (.invalidNodeNames [Ident.suid 1022, Ident.name "YDR277C"]) :=
  ⟨by decide, by decide, by decide,
   (C4_mixed_batch_fails sampleTable [Ident.suid 1022, Ident.name "YDR277C"] 1022
     (by decide) (by decide) (by decide)).1⟩

/-- The name at the first index position of SUID `s`, when the name `n` is
bound to exactly `s` and the SUID index has no duplicates, is `n`. -/
theorem firstNameOfSuid_eq (t : Table) (n : String) (s : Int)
    (hnodup : t.index.Nodup)
    (hone : matchingSuids t (Ident.name n) = [s]) :
    firstNameOfSuid t (PyVal.pint s) = some n := by
  have hnodup' : (t.rows.map (fun r => r.1)).Nodup := hnodup
  have hfil : (t.rows.filter (fun r => r.2 == n)).map (fun r => r.1) = [s] := hone
  cases hf : t.rows.filter (fun r => r.2 == n) with
  | nil => rw [hf] at hfil; simp at hfil
  | cons r0 rest =>
    cases rest with
    | cons r1 rest2 => rw [hf] at hfil; simp at hfil
    | nil =>
      rw [hf] at hfil
      simp only [List.map_cons, List.map_nil, List.cons.injEq, and_true] at hfil
      have hr0mem : r0 ∈ t.rows.filter (fun r => r.2 == n) := by
        rw [hf]; exact List.mem_cons_self _ _
      rw [List.mem_filter] at hr0mem
      obtain ⟨hmem, hname⟩ := hr0mem
      have hname' : r0.2 = n := by simpa using hname
      have hsome : (t.rows.find? (fun r => r.1 == s)).isSome := by
        rw [List.find?_isSome]
        exact ⟨r0, hmem, by simp [hfil]⟩
      obtain ⟨r1, hr1⟩ := Option.isSome_iff_exists.mp hsome
      have hr1mem := List.mem_of_find?_eq_some hr1
      have hr1fst : r1.1 = s := by simpa using List.find?_some hr1
      have heq : r1 = r0 :=
        List.inj_on_of_nodup_map hnodup' hr1mem hmem (by rw [hr1fst, hfil])
      simp [firstNameOfSuid, hr1, heq, hname']

/-- C5: for a name bound to exactly one SUID (and, automatically, not
itself present in the integer SUID index), translating the name with
`node_name_to_node_suid` and translating the resulting SUID back with
`node_suid_to_node_name` yields the single-element batch holding the
original name.  The SUID index must be duplicate-free, as the remote
guarantees. -/
theorem C5_round_trip (t : Table) (n : String) (s : Int)
    (hnodup : t.index.Nodup)
    (hone : matchingSuids t (Ident.name n) = [s]) :
    node_name_to_node_suid t (.str n) = .ok (some [PyVal.pint s]) ∧
    node_suid_to_node_name t (.list [PyVal.pint s]) = .ok (some [PyVal.pstr n]) := by
  constructor
  · rw [node_name_to_node_suid_some t (.str n) [Ident.name n] rfl]
    have h1 : (!(([Ident.name n]).map (inIndex t)).contains false) = false := rfl
    have h2 : ((([Ident.name n]).map (matchingSuids t)).any
        (fun x => x.length == 0)) = false := by
      simp [hone]
    rw [h1, if_neg (by simp : ¬(false = true)), h2,
      if_neg (by simp : ¬(false = true))]
    simp [hone, collapseSuids]
  · have hfirst := firstNameOfSuid_eq t n s hnodup hone
    rw [node_suid_to_node_name_some t (.list [PyVal.pint s]) [PyVal.pint s] rfl]
    have h1 : (!(([PyVal.pint s]).map (inNames t)).contains false) = false := rfl
    have h3 : lookupAllNames t [PyVal.pint s] = some [n] := by
      simp [lookupAllNames, hfirst]
    rw [h1, if_neg (by simp : ¬(false = true)), h3]
    rfl

theorem C5_witness :
    sampleTable.index.Nodup ∧
    matchingSuids sampleTable (Ident.name "YDR277C") = [1022] ∧
    node_name_to_node_suid sampleTable (.str "YDR277C") =
      .ok (some [PyVal.pint 1022]) ∧
    node_suid_to_node_name sampleTable (.list [PyVal.pint 1022]) =
      .ok (some [PyVal.pstr "YDR277C"]) :=
  ⟨by decide, by decide,
   (C5_round_trip sampleTable "YDR277C" 1022 (by decide) (by decide)).1,
   (C5_round_trip sampleTable "YDR277C" 1022 (by decide) (by decide)).2⟩

/-!
## Claims about the validators
-/

/-- A one-element batch is validated exactly as the scalar element. -/
theorem validateEach_singleton (check : Val → Except PyErr Unit) (v : Val) :
    validateEach check [v] = check v := by
  cases h : check v with
  | ok u => cases u; simp [validateEach, h]
  | error e => simp [validateEach, h]

/-- A batch passes iff every element passes: elements are validated
independently. -/
theorem validateEach_ok_iff (check : Val → Except PyErr Unit) (xs : List Val) :
    validateEach check xs = .ok () ↔ ∀ x ∈ xs, check x = .ok () := by
  induction xs with
  | nil => simp [validateEach]
  | cons a t ih =>
    cases h : check a with
    | ok u => cases u; simp [validateEach, h, ih]
    | error e => simp [validateEach, h]

/-- C6 counterexample: the claim says every validator — `verify_slot`
included — is a silent no-op on null input, but `verify_slot(None)` raises
its `CyError` (there is no `None` short-circuit in its body). -/
theorem C6_counterexample :
    verify_slot Val.none = .error PyErr.invalidSlot ∧
    verify_slot Val.none ≠ .ok () := by
  constructor
  · rfl
  · intro h
    rw [show verify_slot Val.none = Except.error PyErr.invalidSlot from rfl] at h
    exact Except.noConfusion h

/-- C6 (amended): the hex color, opacity and dimension validators accept a
scalar or an ordered sequence, validate each element independently, and
are silent no-ops on null input; `verify_slot`, by contrast, takes a
single scalar and raises its `CyError` on null input instead of returning
silently. -/
theorem C6_validators_null_and_shape :
    (verify_hex_colors Val.none = .ok () ∧
     verify_opacities Val.none = .ok () ∧
     (∀ d, verify_dimensions d Val.none = .ok ())) ∧
    (∀ xs,
      verify_hex_colors (Val.vlist xs) = validateEach checkHexColor xs ∧
      verify_opacities (Val.vlist xs) = validateEach checkOpacity xs ∧
      (∀ d, verify_dimensions d (Val.vlist xs) =
        validateEach (checkDimension d) xs)) ∧
    (∀ check xs, validateEach check xs = .ok () ↔ ∀ x ∈ xs, check x = .ok ()) ∧
    (∀ (b : Bool) (n : Int) (q : Rat) (s d : String),
      verify_hex_colors (Val.vstr s) = checkHexColor (Val.vstr s) ∧
      verify_hex_colors (Val.vint n) = checkHexColor (Val.vint n) ∧
      verify_opacities (Val.vbool b) = checkOpacity (Val.vbool b) ∧
      verify_opacities (Val.vint n) = checkOpacity (Val.vint n) ∧
      verify_opacities (Val.vfloat q) = checkOpacity (Val.vfloat q) ∧
      verify_dimensions d (Val.vint n) = checkDimension d (Val.vint n) ∧
      verify_dimensions d (Val.vfloat q) = checkDimension d (Val.vfloat q) ∧
      verify_dimensions d (Val.vstr s) = checkDimension d (Val.vstr s)) ∧
    verify_slot Val.none = .error PyErr.invalidSlot :=
  ⟨⟨rfl, rfl, fun _ => rfl⟩,
   fun _ => ⟨rfl, rfl, fun _ => rfl⟩,
   validateEach_ok_iff,
   fun b n q s d =>
     ⟨validateEach_singleton checkHexColor (Val.vstr s),
      validateEach_singleton checkHexColor (Val.vint n),
      validateEach_singleton checkOpacity (Val.vbool b),
      validateEach_singleton checkOpacity (Val.vint n),
      validateEach_singleton checkOpacity (Val.vfloat q),
      validateEach_singleton (checkDimension d) (Val.vint n),
      validateEach_singleton (checkDimension d) (Val.vfloat q),
      validateEach_singleton (checkDimension d) (Val.vstr s)⟩,
   rfl⟩

/-- C10: the numeric validators silently accept booleans, because
`isinstance(True, int)` holds and `True`/`False` compare as `1`/`0`, which
lie inside `[0, 255]` and (for `True`) `[1, 9]`. -/
theorem C10_boolean_inputs_accepted :
    verify_opacities (Val.vbool true) = .ok () ∧
    verify_opacities (Val.vbool false) = .ok () ∧
    verify_slot (Val.vbool true) = .ok () :=
  ⟨rfl, rfl, rfl⟩

/-!
## Claims about the style-dependency setters
-/

/-- C7: for an unknown style name, `set_style_dependencies` raises the
unknown-style error and the request trace is empty — neither the PUT of
the dependency records nor the reapply-styles command is issued, so remote
state is untouched. -/
theorem C7_unknown_style_no_write (rem : Remote) (style_name : String)
    (deps : List (String × Val))
    (h : rem.visual_style_names.contains style_name = false) :
    set_style_dependencies rem style_name deps =
      (.error (.noVisualStyle "set_style_dependencies" style_name), []) := by
  unfold set_style_dependencies
  rw [h]
  rfl

theorem C7_witness :
    sampleRemote.visual_style_names.contains "bogus" = false ∧
    set_style_dependencies sampleRemote "bogus"
        [("arrowColorMatchesEdge", Val.vbool true)] =
      (.error (.noVisualStyle "set_style_dependencies" "bogus"), []) :=
  ⟨rfl, C7_unknown_style_no_write sampleRemote "bogus"
    [("arrowColorMatchesEdge", Val.vbool true)] rfl⟩

/-- C8: for a known style name, `set_style_dependencies` builds the
list-of-records body from the mapping, issues the PUT, then the
reapply-styles command, and returns the result of the second command; the
PUT result is discarded (the returned value only depends on
`post_response`, never on `put_response`). -/
theorem C8_set_style_writes_then_reapplies (rem : Remote) (style_name : String)
    (deps : List (String × Val))
    (h : rem.visual_style_names.contains style_name = true) :
    set_style_dependencies rem style_name deps =
      (.ok (rem.post_response ("vizmap apply styles=\"" ++ style_name ++ "\"")),
       [Request.cyrest_put ("styles/" ++ style_name ++ "/dependencies")
          (deps.map (fun dv => DepRecord.mk dv.1 dv.2)),
        Request.commands_post ("vizmap apply styles=\"" ++ style_name ++ "\"")]) ∧
    (∀ put2 : String → List DepRecord → Val,
      (set_style_dependencies ⟨rem.visual_style_names, put2, rem.post_response⟩
          style_name deps).1 =
        (set_style_dependencies rem style_name deps).1) := by
  constructor
  · unfold set_style_dependencies
    rw [h]
    rfl
  · intro put2
    unfold set_style_dependencies
    rw [h]

theorem C8_witness :
    sampleRemote.visual_style_names.contains "default" = true ∧
    set_style_dependencies sampleRemote "default"
        [("nodeSizeLocked", Val.vbool true)] =
      (.ok (Val.vstr "applied"),
       [Request.cyrest_put "styles/default/dependencies"
          [DepRecord.mk "nodeSizeLocked" (Val.vbool true)],
        Request.commands_post "vizmap apply styles=\"default\""]) :=
  ⟨rfl, (C8_set_style_writes_then_reapplies sampleRemote "default"
    [("nodeSizeLocked", Val.vbool true)] rfl).1⟩

/-- C9 counterexample: the claim says the specific setters stage "the
supplied boolean state as the flag value", but `match_arrow_color_to_edge`
with `new_state=True` issues a PUT whose record carries the *string*
`'true'` (`toggle = 'true' if new_state else 'false'`), which is not the
boolean `True`. -/
theorem C9_counterexample :
    (match_arrow_color_to_edge sampleRemote true "default").2 =
      [Request.cyrest_put "styles/default/dependencies"
         [DepRecord.mk "arrowColorMatchesEdge" (Val.vstr "true")],
       Request.commands_post "vizmap apply styles=\"default\""] ∧
    Val.vstr "true" ≠ Val.vbool true :=
  ⟨rfl, fun h => Val.noConfusion h⟩

/-- C9 (amended): each specific setter is a one-line specialization of the
generic setter with its single fixed dependency key
(`'arrowColorMatchesEdge'`, `'nodeSizeLocked'`,
`'nodeCustomGraphicsSizeSync'`), staging the lowercase string rendering
`'true'`/`'false'` of the supplied boolean state as the flag value and
returning the generic setter's result. -/
theorem C9_specific_setters_specialize (rem : Remote) (b : Bool) (sn : String) :
    match_arrow_color_to_edge rem b sn =
      set_style_dependencies rem sn
        [("arrowColorMatchesEdge", Val.vstr (if b then "true" else "false"))] ∧
    lock_node_dimensions rem b sn =
      set_style_dependencies rem sn
        [("nodeSizeLocked", Val.vstr (if b then "true" else "false"))] ∧
    sync_node_custom_graphics_size rem b sn =
      set_style_dependencies rem sn
        [("nodeCustomGraphicsSizeSync", Val.vstr (if b then "true" else "false"))] :=
  ⟨rfl, rfl, rfl⟩

end Py4Cy
